import Mathlib

/-!
Verification of the packet codec layer of the renet repository
(`src/renet/src/packet.rs`, `src/renet/src/error.rs`).

Bytes are modelled as natural numbers; every Rust machine-integer field
becomes a `Nat` whose type-level bound (`< 2^8`, `< 2^16`, `< 2^32`) is
carried by a well-formedness predicate.  Truncating `as u16` / `as u8`
casts in the source appear as explicit `% 65536` / `% 256`.  The fallible
reader is a state-passing function over a byte list returning
`Except PacketError (α × List Nat)`; `read_exact` mirrors
`std::io::Read::read_exact`, failing with an I/O error when the buffer is
shorter than requested.  Writing into a `Vec<u8>` cannot fail, so the
writers are total functions returning the produced byte list.
-/

namespace Renet

/-! ## Data model (packet.rs lines 8-74, error.rs lines 7-17) -/

/-- `ReliableMessage { id: u16, payload: Vec<u8> }` (channel/reliable.rs,
used by packet.rs). -/
structure ReliableMessage where
  id : Nat
  payload : List Nat
deriving DecidableEq

/-- `SliceMessage { chunk_id: u16, slice_id: u32, num_slices: u32, payload }`
(channel/block.rs, used by packet.rs). -/
structure SliceMessage where
  chunk_id : Nat
  slice_id : Nat
  num_slices : Nat
  payload : List Nat
deriving DecidableEq

/-- `ReliableChannelData` (packet.rs lines 11-14). -/
structure ReliableChannelData where
  channel_id : Nat
  messages : List ReliableMessage
deriving DecidableEq

/-- `UnreliableChannelData` (packet.rs lines 17-20). -/
structure UnreliableChannelData where
  channel_id : Nat
  messages : List (List Nat)
deriving DecidableEq

/-- `BlockChannelData` (packet.rs lines 23-26). -/
structure BlockChannelData where
  channel_id : Nat
  messages : List SliceMessage
deriving DecidableEq

/-- `AckData { ack: u16, ack_bits: u32 }` (packet.rs lines 29-32). -/
structure AckData where
  ack : Nat
  ack_bits : Nat
deriving DecidableEq

/-- `ChannelMessages` (packet.rs lines 43-47). -/
structure ChannelMessages where
  block_channels_data : List BlockChannelData
  unreliable_channels_data : List UnreliableChannelData
  reliable_channels_data : List ReliableChannelData
deriving DecidableEq

/-- `ChannelMessages::is_empty` (packet.rs lines 50-52). -/
def ChannelMessages.is_empty (c : ChannelMessages) : Bool :=
  c.block_channels_data.isEmpty && c.unreliable_channels_data.isEmpty &&
    c.reliable_channels_data.isEmpty

/-- `Normal` packet body (packet.rs lines 56-60). -/
structure Normal where
  sequence : Nat
  ack_data : AckData
  channel_messages : ChannelMessages
deriving DecidableEq

/-- `Fragment` packet body (packet.rs lines 63-69). -/
structure Fragment where
  ack_data : AckData
  sequence : Nat
  fragment_id : Nat
  num_fragments : Nat
  payload : List Nat
deriving DecidableEq

/-- `HeartBeat` packet body (packet.rs lines 72-74). -/
structure HeartBeat where
  ack_data : AckData
deriving DecidableEq

/-- `DisconnectionReason` (error.rs lines 7-17): eight variants, the last
three carrying a `u8` channel id. -/
inductive DisconnectionReason where
  | MaxConnections
  | TimedOut
  | DisconnectedByServer
  | DisconnectedByClient
  | ClientAlreadyConnected
  | InvalidChannelId (channel_id : Nat)
  | MismatchingChannelType (channel_id : Nat)
  | ReliableChannelOutOfSync (channel_id : Nat)
deriving DecidableEq

/-- `DisconnectionReason::id` (error.rs lines 19-32). -/
def DisconnectionReason.id : DisconnectionReason → Nat
  | .MaxConnections => 0
  | .TimedOut => 1
  | .DisconnectedByServer => 2
  | .DisconnectedByClient => 3
  | .ClientAlreadyConnected => 4
  | .InvalidChannelId _ => 5
  | .MismatchingChannelType _ => 6
  | .ReliableChannelOutOfSync _ => 7

/-- `DisconnectionReason::try_from(id, channel_id)` (error.rs lines 34-50). -/
def DisconnectionReason.try_from (i : Nat) (channel_id : Nat) :
    Option DisconnectionReason :=
  if i = 0 then some .MaxConnections
  else if i = 1 then some .TimedOut
  else if i = 2 then some .DisconnectedByServer
  else if i = 3 then some .DisconnectedByClient
  else if i = 4 then some .ClientAlreadyConnected
  else if i = 5 then some (.InvalidChannelId channel_id)
  else if i = 6 then some (.MismatchingChannelType channel_id)
  else if i = 7 then some (.ReliableChannelOutOfSync channel_id)
  else none

/-- `Packet` (packet.rs lines 35-40). -/
inductive Packet where
  | Normal (n : Normal)
  | Fragment (f : Fragment)
  | Heartbeat (h : HeartBeat)
  | Disconnect (reason : DisconnectionReason)
deriving DecidableEq

/-! ## Little-endian byte helpers (`to_le_bytes` / `from_le_bytes`) -/

/-- The two little-endian bytes of a `u16` (`u16::to_le_bytes`). -/
def u16_le (x : Nat) : List Nat := [x % 256, x / 256 % 256]

/-- The four little-endian bytes of a `u32` (`u32::to_le_bytes`). -/
def u32_le (x : Nat) : List Nat :=
  [x % 256, x / 256 % 256, x / 65536 % 256, x / 16777216 % 256]

/-- Value of a little-endian byte list (`from_le_bytes`). -/
def le_val : List Nat → Nat
  | [] => 0
  | b :: rest => b + 256 * le_val rest

/-! ## Writers (packet.rs lines 155-255)

`Packet::write` emits into a `Vec<u8>`, which never errors, so each writer
is a total function to the produced byte list.  The sequence of emitted
fields follows the source line by line; `as u16` / `as u8` casts on
lengths are the explicit `% 65536` / `% 256`. -/

/-- Bytes written for one `ReliableMessage` (packet.rs lines 174-180):
`id:u16`, `payload.len() as u16`, then the payload verbatim. -/
def ReliableMessage.write (m : ReliableMessage) : List Nat :=
  u16_le m.id ++ u16_le (m.payload.length % 65536) ++ m.payload

/-- Bytes written for one unreliable message (packet.rs lines 190-195):
`len() as u16` then the bytes verbatim. -/
def unreliable_message_write (p : List Nat) : List Nat :=
  u16_le (p.length % 65536) ++ p

/-- Bytes written for one `SliceMessage` (packet.rs lines 205-213). -/
def SliceMessage.write (m : SliceMessage) : List Nat :=
  u16_le m.chunk_id ++ u32_le m.slice_id ++ u32_le m.num_slices ++
    u16_le (m.payload.length % 65536) ++ m.payload

/-- Bytes written for one reliable channel (packet.rs lines 169-181):
`channel_id:u8`, `messages.len() as u16`, then each message. -/
def ReliableChannelData.write (d : ReliableChannelData) : List Nat :=
  [d.channel_id] ++ u16_le (d.messages.length % 65536) ++
    (d.messages.map ReliableMessage.write).flatten

/-- Bytes written for one unreliable channel (packet.rs lines 185-196). -/
def UnreliableChannelData.write (d : UnreliableChannelData) : List Nat :=
  [d.channel_id] ++ u16_le (d.messages.length % 65536) ++
    (d.messages.map unreliable_message_write).flatten

/-- Bytes written for one block channel (packet.rs lines 200-214). -/
def BlockChannelData.write (d : BlockChannelData) : List Nat :=
  [d.channel_id] ++ u16_le (d.messages.length % 65536) ++
    (d.messages.map SliceMessage.write).flatten

/-- `Packet::write` (packet.rs lines 155-255).  Tag byte, then the body in
source order; channel-list lengths are cast `as u8` (`% 256`). -/
def Packet.write : Packet → List Nat
  | .Normal n =>
    [0] ++ u16_le n.sequence ++ u16_le n.ack_data.ack ++
      u32_le n.ack_data.ack_bits ++
      ([n.channel_messages.reliable_channels_data.length % 256] ++
        (n.channel_messages.reliable_channels_data.map
          ReliableChannelData.write).flatten) ++
      ([n.channel_messages.unreliable_channels_data.length % 256] ++
        (n.channel_messages.unreliable_channels_data.map
          UnreliableChannelData.write).flatten) ++
      ([n.channel_messages.block_channels_data.length % 256] ++
        (n.channel_messages.block_channels_data.map
          BlockChannelData.write).flatten)
  | .Fragment f =>
    [1] ++ u16_le f.sequence ++ u16_le f.ack_data.ack ++
      u32_le f.ack_data.ack_bits ++ [f.fragment_id] ++ [f.num_fragments] ++
      u16_le (f.payload.length % 65536) ++ f.payload
  | .Heartbeat h =>
    [2] ++ u16_le h.ack_data.ack ++ u32_le h.ack_data.ack_bits
  | .Disconnect reason =>
    [3] ++ [reason.id] ++
      (match reason with
       | .InvalidChannelId channel_id => [channel_id]
       | .MismatchingChannelType channel_id => [channel_id]
       | .ReliableChannelOutOfSync channel_id => [channel_id]
       | _ => [0])

/-- `Packet::serialize_size` (packet.rs lines 109-154).  Only the Normal
variant is measured; every other variant falls to the `_ => 0` arm. -/
def Packet.serialize_size : Packet → Nat
  | .Normal n =>
    1 + 2 + 6 +
      (1 + (n.channel_messages.reliable_channels_data.map (fun d =>
        1 + 2 + (d.messages.map (fun m => 2 + 2 + m.payload.length)).sum)).sum) +
      (1 + (n.channel_messages.unreliable_channels_data.map (fun d =>
        1 + 2 + (d.messages.map (fun m => 2 + m.length)).sum)).sum) +
      (1 + (n.channel_messages.block_channels_data.map (fun d =>
        1 + 2 + (d.messages.map (fun m =>
          2 + 4 + 4 + 2 + m.payload.length)).sum)).sum)
  | _ => 0

/-! ## Reader (packet.rs lines 257-368, 401-434) -/

/-- `PacketError` (packet.rs lines 374-379).  The only `io::Error` the
reader can produce is the `read_exact` unexpected-end-of-buffer error, so
`IoError` carries no payload here. -/
inductive PacketError where
  | InvalidPacketType
  | InvalidDisconnectReason
  | IoError
deriving DecidableEq

/-- A fallible sequential reader over a byte list: the shallow embedding of
a `&mut impl io::Read` backed by a byte slice. -/
def ReadM (α : Type) : Type :=
  List Nat → Except PacketError (α × List Nat)

/-- Reader returning a value without consuming input. -/
def ReadM.pure {α : Type} (a : α) : ReadM α := fun l => .ok (a, l)

/-- Sequencing of readers; an error short-circuits (the `?` operator). -/
def ReadM.bind {α β : Type} (m : ReadM α) (f : α → ReadM β) : ReadM β :=
  fun l =>
    match m l with
    | .ok (a, r) => f a r
    | .error e => .error e

/-- Reader failing outright with the given error. -/
def ReadM.fail {α : Type} (e : PacketError) : ReadM α := fun _ => .error e

/-- `read_exact` into an `n`-byte buffer: consume exactly `n` bytes or fail
with the I/O truncation error (packet.rs lines 430-434 and every
`read_exact` call site). -/
def read_exact (n : Nat) : ReadM (List Nat) := fun l =>
  if n ≤ l.length then .ok (l.take n, l.drop n) else .error .IoError

/-- `read_u8` (packet.rs lines 422-427). -/
def read_u8 : ReadM Nat :=
  ReadM.bind (read_exact 1) fun b => ReadM.pure (le_val b)

/-- `read_u16` (packet.rs lines 415-420). -/
def read_u16 : ReadM Nat :=
  ReadM.bind (read_exact 2) fun b => ReadM.pure (le_val b)

/-- `read_u32` (packet.rs lines 408-413). -/
def read_u32 : ReadM Nat :=
  ReadM.bind (read_exact 4) fun b => ReadM.pure (le_val b)

/-- A `for _ in 0..n` loop pushing one parsed record per iteration. -/
def read_list {α : Type} : Nat → ReadM α → ReadM (List α)
  | 0, _ => ReadM.pure []
  | n + 1, m =>
    ReadM.bind m fun a =>
    ReadM.bind (read_list n m) fun rest =>
    ReadM.pure (a :: rest)

/-- One reliable message (packet.rs lines 274-278). -/
def read_reliable_message : ReadM ReliableMessage :=
  ReadM.bind read_u16 fun i =>
  ReadM.bind read_u16 fun size =>
  ReadM.bind (read_exact size) fun payload =>
  ReadM.pure { id := i, payload := payload }

/-- One unreliable message (packet.rs lines 290-293). -/
def read_unreliable_message : ReadM (List Nat) :=
  ReadM.bind read_u16 fun size =>
  ReadM.bind (read_exact size) fun payload =>
  ReadM.pure payload

/-- One slice message (packet.rs lines 305-316). -/
def read_slice_message : ReadM SliceMessage :=
  ReadM.bind read_u16 fun chunk_id =>
  ReadM.bind read_u32 fun slice_id =>
  ReadM.bind read_u32 fun num_slices =>
  ReadM.bind read_u16 fun size =>
  ReadM.bind (read_exact size) fun payload =>
  ReadM.pure { chunk_id := chunk_id, slice_id := slice_id,
               num_slices := num_slices, payload := payload }

/-- One reliable channel (packet.rs lines 270-280). -/
def read_reliable_channel : ReadM ReliableChannelData :=
  ReadM.bind read_u8 fun channel_id =>
  ReadM.bind read_u16 fun messages_len =>
  ReadM.bind (read_list messages_len read_reliable_message) fun messages =>
  ReadM.pure { channel_id := channel_id, messages := messages }

/-- One unreliable channel (packet.rs lines 286-295). -/
def read_unreliable_channel : ReadM UnreliableChannelData :=
  ReadM.bind read_u8 fun channel_id =>
  ReadM.bind read_u16 fun messages_len =>
  ReadM.bind (read_list messages_len read_unreliable_message) fun messages =>
  ReadM.pure { channel_id := channel_id, messages := messages }

/-- One block channel (packet.rs lines 301-318). -/
def read_block_channel : ReadM BlockChannelData :=
  ReadM.bind read_u8 fun channel_id =>
  ReadM.bind read_u16 fun messages_len =>
  ReadM.bind (read_list messages_len read_slice_message) fun messages =>
  ReadM.pure { channel_id := channel_id, messages := messages }

/-- The tag-0 (Normal) arm of `Packet::read` (packet.rs lines 260-332). -/
def read_normal : ReadM Packet :=
  ReadM.bind read_u16 fun sequence =>
  ReadM.bind read_u16 fun ack =>
  ReadM.bind read_u32 fun ack_bits =>
  ReadM.bind read_u8 fun reliable_channel_len =>
  ReadM.bind (read_list reliable_channel_len read_reliable_channel)
    fun reliable_channels_data =>
  ReadM.bind read_u8 fun unreliable_channel_len =>
  ReadM.bind (read_list unreliable_channel_len read_unreliable_channel)
    fun unreliable_channels_data =>
  ReadM.bind read_u8 fun block_channel_len =>
  ReadM.bind (read_list block_channel_len read_block_channel)
    fun block_channels_data =>
  ReadM.pure (Packet.Normal
    { sequence := sequence,
      ack_data := { ack := ack, ack_bits := ack_bits },
      channel_messages :=
        { reliable_channels_data := reliable_channels_data,
          unreliable_channels_data := unreliable_channels_data,
          block_channels_data := block_channels_data } })

/-- The tag-1 (Fragment) arm of `Packet::read` (packet.rs lines 333-351). -/
def read_fragment : ReadM Packet :=
  ReadM.bind read_u16 fun sequence =>
  ReadM.bind read_u16 fun ack =>
  ReadM.bind read_u32 fun ack_bits =>
  ReadM.bind read_u8 fun fragment_id =>
  ReadM.bind read_u8 fun num_fragments =>
  ReadM.bind read_u16 fun size =>
  ReadM.bind (read_exact size) fun payload =>
  ReadM.pure (Packet.Fragment
    { sequence := sequence,
      ack_data := { ack := ack, ack_bits := ack_bits },
      fragment_id := fragment_id,
      num_fragments := num_fragments,
      payload := payload })

/-- The tag-2 (Heartbeat) arm of `Packet::read` (packet.rs lines 352-357). -/
def read_heartbeat : ReadM Packet :=
  ReadM.bind read_u16 fun ack =>
  ReadM.bind read_u32 fun ack_bits =>
  ReadM.pure (Packet.Heartbeat { ack_data := { ack := ack, ack_bits := ack_bits } })

/-- The tag-3 (Disconnect) arm of `Packet::read` (packet.rs lines 358-365). -/
def read_disconnect : ReadM Packet :=
  ReadM.bind read_u8 fun reason_id =>
  ReadM.bind read_u8 fun channel_id =>
  match DisconnectionReason.try_from reason_id channel_id with
  | some reason => ReadM.pure (Packet.Disconnect reason)
  | none => ReadM.fail .InvalidDisconnectReason

/-- `Packet::read` (packet.rs lines 257-368): read the tag byte and
dispatch; an unrecognized tag fails with `InvalidPacketType`. -/
def Packet.read : ReadM Packet :=
  ReadM.bind read_u8 fun packet_type =>
  if packet_type = 0 then read_normal
  else if packet_type = 1 then read_fragment
  else if packet_type = 2 then read_heartbeat
  else if packet_type = 3 then read_disconnect
  else ReadM.fail .InvalidPacketType

/-- `disconnect_packet` (packet.rs lines 100-104) serializes
`Packet::Disconnect(reason)` with `bincode::options().serialize`, NOT with
`Packet::write`.  Bincode 1.x default options use little-endian varint
integer encoding: an enum is its `u32` variant index (a single byte for
values below 251) followed by the variant's fields, and a `u8` field is
one raw byte.  `Packet::Disconnect` is variant index 3 of `Packet`; the
`DisconnectionReason` variant indices coincide with
`DisconnectionReason::id`.  Serialization of this type cannot fail (no
size limit is configured), so the `Result` is always `Ok` and the model
returns the byte list directly. -/
def disconnect_packet (reason : DisconnectionReason) : List Nat :=
  3 :: reason.id ::
    (match reason with
     | .InvalidChannelId channel_id => [channel_id]
     | .MismatchingChannelType channel_id => [channel_id]
     | .ReliableChannelOutOfSync channel_id => [channel_id]
     | _ => [])

/-! ## Well-formedness

The Rust types bound every field (`u8 < 2^8`, `u16 < 2^16`, `u32 < 2^32`);
in the shallow embedding these bounds are a predicate.  The length bounds
(`payload ≤ 65535` bytes, at most `65535` messages per channel, at most
`255` channels per category) are the conditions under which the `as u16` /
`as u8` casts in `Packet::write` are lossless. -/

/-- Field and length bounds for a `ReliableMessage`. -/
def ReliableMessage.wf (m : ReliableMessage) : Prop :=
  m.id < 65536 ∧ m.payload.length ≤ 65535

/-- Field and length bounds for a `SliceMessage`. -/
def SliceMessage.wf (m : SliceMessage) : Prop :=
  m.chunk_id < 65536 ∧ m.slice_id < 4294967296 ∧
    m.num_slices < 4294967296 ∧ m.payload.length ≤ 65535

/-- Field and length bounds for a `ReliableChannelData`. -/
def ReliableChannelData.wf (d : ReliableChannelData) : Prop :=
  d.channel_id < 256 ∧ d.messages.length ≤ 65535 ∧
    ∀ m ∈ d.messages, m.wf

/-- Field and length bounds for an `UnreliableChannelData`. -/
def UnreliableChannelData.wf (d : UnreliableChannelData) : Prop :=
  d.channel_id < 256 ∧ d.messages.length ≤ 65535 ∧
    ∀ p ∈ d.messages, p.length ≤ 65535

/-- Field and length bounds for a `BlockChannelData`. -/
def BlockChannelData.wf (d : BlockChannelData) : Prop :=
  d.channel_id < 256 ∧ d.messages.length ≤ 65535 ∧
    ∀ m ∈ d.messages, m.wf

/-- Field and length bounds for a `ChannelMessages` aggregation. -/
def ChannelMessages.wf (c : ChannelMessages) : Prop :=
  c.reliable_channels_data.length ≤ 255 ∧
    (∀ d ∈ c.reliable_channels_data, d.wf) ∧
    c.unreliable_channels_data.length ≤ 255 ∧
    (∀ d ∈ c.unreliable_channels_data, d.wf) ∧
    c.block_channels_data.length ≤ 255 ∧
    ∀ d ∈ c.block_channels_data, d.wf

/-- Field bounds for an `AckData`. -/
def AckData.wf (a : AckData) : Prop :=
  a.ack < 65536 ∧ a.ack_bits < 4294967296

/-- Field bound for a `DisconnectionReason` (the carried channel id is a
`u8`). -/
def DisconnectionReason.wf : DisconnectionReason → Prop
  | .InvalidChannelId channel_id => channel_id < 256
  | .MismatchingChannelType channel_id => channel_id < 256
  | .ReliableChannelOutOfSync channel_id => channel_id < 256
  | _ => True

/-- Field and length bounds for a whole `Packet`. -/
def Packet.wf : Packet → Prop
  | .Normal n => n.sequence < 65536 ∧ n.ack_data.wf ∧ n.channel_messages.wf
  | .Fragment f =>
    f.sequence < 65536 ∧ f.ack_data.wf ∧ f.fragment_id < 256 ∧
      f.num_fragments < 256 ∧ f.payload.length ≤ 65535
  | .Heartbeat h => h.ack_data.wf
  | .Disconnect reason => reason.wf

instance (m : ReliableMessage) : Decidable m.wf := by
  unfold ReliableMessage.wf; infer_instance

instance (m : SliceMessage) : Decidable m.wf := by
  unfold SliceMessage.wf; infer_instance

instance (d : ReliableChannelData) : Decidable d.wf := by
  unfold ReliableChannelData.wf; infer_instance

instance (d : UnreliableChannelData) : Decidable d.wf := by
  unfold UnreliableChannelData.wf; infer_instance

instance (d : BlockChannelData) : Decidable d.wf := by
  unfold BlockChannelData.wf; infer_instance

instance (c : ChannelMessages) : Decidable c.wf := by
  unfold ChannelMessages.wf; infer_instance

instance (a : AckData) : Decidable a.wf := by
  unfold AckData.wf; infer_instance

instance (r : DisconnectionReason) : Decidable r.wf := by
  unfold DisconnectionReason.wf
  cases r <;> infer_instance

instance (p : Packet) : Decidable p.wf := by
  unfold Packet.wf
  cases p <;> infer_instance

/-! ## Spec-side helper definitions used to state the claims -/

/-- The wire tag byte a variant is written with (the literal first byte of
each `Packet::write` arm). -/
def Packet.packet_type : Packet → Nat
  | .Normal _ => 0
  | .Fragment _ => 1
  | .Heartbeat _ => 2
  | .Disconnect _ => 3

/-- The given reason with its carried channel id replaced by `c` for the
three channel-carrying variants, unchanged otherwise. -/
def DisconnectionReason.with_channel : DisconnectionReason → Nat → DisconnectionReason
  | .InvalidChannelId _, c => .InvalidChannelId c
  | .MismatchingChannelType _, c => .MismatchingChannelType c
  | .ReliableChannelOutOfSync _, c => .ReliableChannelOutOfSync c
  | r, _ => r

/-- The channel-id byte `Packet::write` emits for a Disconnect packet: the
carried channel id for the three channel-carrying variants, `0` for the
other five reasons. -/
def DisconnectionReason.channel_byte : DisconnectionReason → Nat
  | .InvalidChannelId channel_id => channel_id
  | .MismatchingChannelType channel_id => channel_id
  | .ReliableChannelOutOfSync channel_id => channel_id
  | _ => 0

/-- Well-behavedness of a reader: a successful parse consumed a prefix of
the input (never over-reading), depends only on the consumed bytes (any
tail may replace the leftover), and fails with the I/O truncation error on
every strict prefix of the consumed bytes. -/
def Wb {α : Type} (m : ReadM α) : Prop :=
  ∀ l a r, m l = .ok (a, r) →
    ∃ c, l = c ++ r ∧
      (∀ s, m (c ++ s) = .ok (a, s)) ∧
      ∀ t, t <+: c → t.length < c.length → m t = .error .IoError

/-! ## Example values used by the witnesses -/

/-- A Normal packet exercising all three channel categories. -/
def sample_packet : Packet :=
  .Normal
    { sequence := 7,
      ack_data := { ack := 3, ack_bits := 5 },
      channel_messages :=
        { reliable_channels_data :=
            [{ channel_id := 0,
               messages := [{ id := 0, payload := [] },
                            { id := 1, payload := [1] }] },
             { channel_id := 1, messages := [{ id := 2, payload := [2, 2] }] }],
          unreliable_channels_data :=
            [{ channel_id := 2, messages := [[9], [8, 7]] }],
          block_channels_data :=
            [{ channel_id := 5,
               messages := [{ chunk_id := 0, slice_id := 0, num_slices := 4,
                              payload := [1, 2, 3] }] }] } }

/-- A Normal packet with an empty channel aggregation. -/
def empty_normal : Normal :=
  { sequence := 1,
    ack_data := { ack := 2, ack_bits := 3 },
    channel_messages :=
      { reliable_channels_data := [],
        unreliable_channels_data := [],
        block_channels_data := [] } }

/-- A small concrete Fragment packet. -/
def sample_fragment : Fragment :=
  { sequence := 5,
    ack_data := { ack := 6, ack_bits := 7 },
    fragment_id := 1,
    num_fragments := 2,
    payload := [9, 8] }

/-- A Fragment packet whose payload length (`65536`) exceeds `u16::MAX`,
so the `as u16` cast in `Packet::write` wraps its length prefix to `0`. -/
def oversized_fragment : Fragment :=
  { sequence := 0,
    ack_data := { ack := 0, ack_bits := 0 },
    fragment_id := 0,
    num_fragments := 1,
    payload := List.replicate 65536 7 }

/-! ## Primitive reader lemmas -/

/-- Sequencing after a successful read runs the continuation on the rest. -/
theorem ReadM.bind_ok {α β : Type} {m : ReadM α} {f : α → ReadM β}
    {l : List Nat} {a : α} {r : List Nat} (h : m l = .ok (a, r)) :
    ReadM.bind m f l = f a r := by
  unfold ReadM.bind; rw [h]

/-- Sequencing after a failed read propagates the error. -/
theorem ReadM.bind_error {α β : Type} {m : ReadM α} {f : α → ReadM β}
    {l : List Nat} {e : PacketError} (h : m l = .error e) :
    ReadM.bind m f l = .error e := by
  unfold ReadM.bind; rw [h]

/-- `read_exact` on a buffer beginning with the requested bytes returns
them and the rest. -/
theorem read_exact_append (c s : List Nat) :
    read_exact c.length (c ++ s) = .ok (c, s) := by
  unfold read_exact
  rw [if_pos (by simp), List.take_left, List.drop_left]

/-- `read_exact n` when the front block has length `n`. -/
theorem read_exact_of_length {n : Nat} (c s : List Nat) (h : c.length = n) :
    read_exact n (c ++ s) = .ok (c, s) := by
  subst h; exact read_exact_append c s

/-- Decoding the two little-endian bytes of `x` gives `x` modulo `2^16`. -/
theorem le_val_u16 (x : Nat) : le_val (u16_le x) = x % 65536 := by
  simp only [u16_le, le_val]; omega

/-- Decoding the four little-endian bytes of `x` gives `x` modulo `2^32`. -/
theorem le_val_u32 (x : Nat) : le_val (u32_le x) = x % 4294967296 := by
  simp only [u32_le, le_val]; omega

/-- `read_u8` takes the first byte. -/
theorem read_u8_cons (b : Nat) (s : List Nat) :
    read_u8 (b :: s) = .ok (b, s) := by
  simp [read_u8, ReadM.bind, read_exact, ReadM.pure, le_val]

/-- `read_u16` undoes `u16_le` up to the `u16` range. -/
theorem read_u16_append (x : Nat) (s : List Nat) :
    read_u16 (u16_le x ++ s) = .ok (x % 65536, s) := by
  unfold read_u16
  rw [ReadM.bind_ok (read_exact_of_length (n := 2) (u16_le x) s rfl)]
  simp [ReadM.pure, le_val_u16]

/-- `read_u32` undoes `u32_le` up to the `u32` range. -/
theorem read_u32_append (x : Nat) (s : List Nat) :
    read_u32 (u32_le x ++ s) = .ok (x % 4294967296, s) := by
  unfold read_u32
  rw [ReadM.bind_ok (read_exact_of_length (n := 4) (u32_le x) s rfl)]
  simp [ReadM.pure, le_val_u32]

/-- A counted list read undoes the concatenation of element writes, given
that each element's read undoes its write. -/
theorem read_list_append {α : Type} {W : α → List Nat} {m : ReadM α}
    (as_ : List α) (hm : ∀ a ∈ as_, ∀ s, m (W a ++ s) = .ok (a, s))
    (s : List Nat) :
    read_list as_.length m ((as_.map W).flatten ++ s) = .ok (as_, s) := by
  induction as_ generalizing s with
  | nil => simp [read_list, ReadM.pure]
  | cons a rest ih =>
    simp only [List.map_cons, List.flatten_cons, List.length_cons,
      List.append_assoc]
    show ReadM.bind m _ _ = _
    rw [ReadM.bind_ok (hm a (by simp) _)]
    rw [ReadM.bind_ok (ih (fun x hx t => hm x (by simp [hx]) t) s)]
    rfl

/-! ## Round-trip, message and channel level -/

/-- Reading back one written reliable message. -/
theorem read_reliable_message_write (m : ReliableMessage) (h : m.wf)
    (s : List Nat) : read_reliable_message (m.write ++ s) = .ok (m, s) := by
  obtain ⟨h1, h2⟩ := h
  unfold read_reliable_message ReliableMessage.write
  rw [Nat.mod_eq_of_lt (show m.payload.length < 65536 by omega)]
  rw [List.append_assoc, List.append_assoc,
    ReadM.bind_ok (read_u16_append m.id _), Nat.mod_eq_of_lt h1]
  rw [ReadM.bind_ok (read_u16_append m.payload.length _),
    Nat.mod_eq_of_lt (show m.payload.length < 65536 by omega)]
  rw [ReadM.bind_ok (read_exact_append m.payload s)]
  rfl

/-- Reading back one written unreliable message. -/
theorem read_unreliable_message_write (p : List Nat)
    (h : p.length ≤ 65535) (s : List Nat) :
    read_unreliable_message (unreliable_message_write p ++ s) = .ok (p, s) := by
  unfold read_unreliable_message unreliable_message_write
  rw [Nat.mod_eq_of_lt (show p.length < 65536 by omega)]
  rw [List.append_assoc, ReadM.bind_ok (read_u16_append p.length _),
    Nat.mod_eq_of_lt (show p.length < 65536 by omega)]
  rw [ReadM.bind_ok (read_exact_append p s)]
  rfl

/-- Reading back one written slice message. -/
theorem read_slice_message_write (m : SliceMessage) (h : m.wf)
    (s : List Nat) : read_slice_message (m.write ++ s) = .ok (m, s) := by
  obtain ⟨h1, h2, h3, h4⟩ := h
  unfold read_slice_message SliceMessage.write
  rw [Nat.mod_eq_of_lt (show m.payload.length < 65536 by omega)]
  simp only [List.append_assoc]
  rw [ReadM.bind_ok (read_u16_append m.chunk_id _), Nat.mod_eq_of_lt h1]
  rw [ReadM.bind_ok (read_u32_append m.slice_id _), Nat.mod_eq_of_lt h2]
  rw [ReadM.bind_ok (read_u32_append m.num_slices _), Nat.mod_eq_of_lt h3]
  rw [ReadM.bind_ok (read_u16_append m.payload.length _),
    Nat.mod_eq_of_lt (show m.payload.length < 65536 by omega)]
  rw [ReadM.bind_ok (read_exact_append m.payload s)]
  rfl

/-- Reading back one written reliable channel. -/
theorem read_reliable_channel_write (d : ReliableChannelData) (h : d.wf)
    (s : List Nat) : read_reliable_channel (d.write ++ s) = .ok (d, s) := by
  obtain ⟨h1, h2, h3⟩ := h
  unfold read_reliable_channel ReliableChannelData.write
  rw [Nat.mod_eq_of_lt (show d.messages.length < 65536 by omega)]
  simp only [List.append_assoc, List.singleton_append, List.cons_append, List.nil_append]
  rw [ReadM.bind_ok (read_u8_cons d.channel_id _)]
  rw [ReadM.bind_ok (read_u16_append d.messages.length _),
    Nat.mod_eq_of_lt (show d.messages.length < 65536 by omega)]
  rw [ReadM.bind_ok (read_list_append d.messages
    (fun m hm t => read_reliable_message_write m (h3 m hm) t) s)]
  rfl

/-- Reading back one written unreliable channel. -/
theorem read_unreliable_channel_write (d : UnreliableChannelData) (h : d.wf)
    (s : List Nat) : read_unreliable_channel (d.write ++ s) = .ok (d, s) := by
  obtain ⟨h1, h2, h3⟩ := h
  unfold read_unreliable_channel UnreliableChannelData.write
  rw [Nat.mod_eq_of_lt (show d.messages.length < 65536 by omega)]
  simp only [List.append_assoc, List.singleton_append, List.cons_append, List.nil_append]
  rw [ReadM.bind_ok (read_u8_cons d.channel_id _)]
  rw [ReadM.bind_ok (read_u16_append d.messages.length _),
    Nat.mod_eq_of_lt (show d.messages.length < 65536 by omega)]
  rw [ReadM.bind_ok (read_list_append d.messages
    (fun p hp t => read_unreliable_message_write p (h3 p hp) t) s)]
  rfl

/-- Reading back one written block channel. -/
theorem read_block_channel_write (d : BlockChannelData) (h : d.wf)
    (s : List Nat) : read_block_channel (d.write ++ s) = .ok (d, s) := by
  obtain ⟨h1, h2, h3⟩ := h
  unfold read_block_channel BlockChannelData.write
  rw [Nat.mod_eq_of_lt (show d.messages.length < 65536 by omega)]
  simp only [List.append_assoc, List.singleton_append, List.cons_append, List.nil_append]
  rw [ReadM.bind_ok (read_u8_cons d.channel_id _)]
  rw [ReadM.bind_ok (read_u16_append d.messages.length _),
    Nat.mod_eq_of_lt (show d.messages.length < 65536 by omega)]
  rw [ReadM.bind_ok (read_list_append d.messages
    (fun m hm t => read_slice_message_write m (h3 m hm) t) s)]
  rfl

/-! ## Round-trip, packet level -/

/-- A buffer starting with tag byte `0` is parsed by the Normal arm. -/
theorem packet_read_tag0 (l : List Nat) :
    Packet.read (0 :: l) = read_normal l := by
  unfold Packet.read
  rw [ReadM.bind_ok (read_u8_cons 0 l)]
  rfl

/-- A buffer starting with tag byte `1` is parsed by the Fragment arm. -/
theorem packet_read_tag1 (l : List Nat) :
    Packet.read (1 :: l) = read_fragment l := by
  unfold Packet.read
  rw [ReadM.bind_ok (read_u8_cons 1 l)]
  rfl

/-- A buffer starting with tag byte `2` is parsed by the Heartbeat arm. -/
theorem packet_read_tag2 (l : List Nat) :
    Packet.read (2 :: l) = read_heartbeat l := by
  unfold Packet.read
  rw [ReadM.bind_ok (read_u8_cons 2 l)]
  rfl

/-- A buffer starting with tag byte `3` is parsed by the Disconnect arm. -/
theorem packet_read_tag3 (l : List Nat) :
    Packet.read (3 :: l) = read_disconnect l := by
  unfold Packet.read
  rw [ReadM.bind_ok (read_u8_cons 3 l)]
  rfl

/-- A buffer starting with a tag byte above `3` is rejected with
`InvalidPacketType`. -/
theorem packet_read_tag_invalid (b : Nat) (hb : 3 < b) (l : List Nat) :
    Packet.read (b :: l) = .error .InvalidPacketType := by
  unfold Packet.read
  rw [ReadM.bind_ok (read_u8_cons b l)]
  split_ifs with h0 h1 h2 h3 <;> first | omega | rfl

/-- Reading back a written packet leaves any trailing bytes unconsumed. -/
theorem packet_read_write (p : Packet) (h : p.wf) (s : List Nat) :
    Packet.read (Packet.write p ++ s) = .ok (p, s) := by
  cases p with
  | Normal n =>
    obtain ⟨hseq, ⟨hack, hbits⟩, hrl, hrd, hul, hud, hbl, hbd⟩ := h
    simp only [Packet.write]
    simp only [List.append_assoc, List.singleton_append, List.cons_append,
      List.nil_append]
    rw [packet_read_tag0]
    unfold read_normal
    rw [ReadM.bind_ok (read_u16_append n.sequence _), Nat.mod_eq_of_lt hseq]
    rw [ReadM.bind_ok (read_u16_append n.ack_data.ack _), Nat.mod_eq_of_lt hack]
    rw [ReadM.bind_ok (read_u32_append n.ack_data.ack_bits _),
      Nat.mod_eq_of_lt hbits]
    rw [ReadM.bind_ok (read_u8_cons _ _), Nat.mod_eq_of_lt
      (show n.channel_messages.reliable_channels_data.length < 256 by omega)]
    rw [ReadM.bind_ok (read_list_append n.channel_messages.reliable_channels_data
      (fun d hd t => read_reliable_channel_write d (hrd d hd) t) _)]
    rw [ReadM.bind_ok (read_u8_cons _ _), Nat.mod_eq_of_lt
      (show n.channel_messages.unreliable_channels_data.length < 256 by omega)]
    rw [ReadM.bind_ok (read_list_append n.channel_messages.unreliable_channels_data
      (fun d hd t => read_unreliable_channel_write d (hud d hd) t) _)]
    rw [ReadM.bind_ok (read_u8_cons _ _), Nat.mod_eq_of_lt
      (show n.channel_messages.block_channels_data.length < 256 by omega)]
    rw [ReadM.bind_ok (read_list_append n.channel_messages.block_channels_data
      (fun d hd t => read_block_channel_write d (hbd d hd) t) _)]
    rfl
  | Fragment f =>
    obtain ⟨hseq, ⟨hack, hbits⟩, hfid, hnf, hlen⟩ := h
    simp only [Packet.write]
    rw [Nat.mod_eq_of_lt (show f.payload.length < 65536 by omega)]
    simp only [List.append_assoc, List.singleton_append, List.cons_append,
      List.nil_append]
    rw [packet_read_tag1]
    unfold read_fragment
    rw [ReadM.bind_ok (read_u16_append f.sequence _), Nat.mod_eq_of_lt hseq]
    rw [ReadM.bind_ok (read_u16_append f.ack_data.ack _), Nat.mod_eq_of_lt hack]
    rw [ReadM.bind_ok (read_u32_append f.ack_data.ack_bits _),
      Nat.mod_eq_of_lt hbits]
    rw [ReadM.bind_ok (read_u8_cons f.fragment_id _)]
    rw [ReadM.bind_ok (read_u8_cons f.num_fragments _)]
    rw [ReadM.bind_ok (read_u16_append f.payload.length _),
      Nat.mod_eq_of_lt (show f.payload.length < 65536 by omega)]
    rw [ReadM.bind_ok (read_exact_append f.payload s)]
    rfl
  | Heartbeat hb =>
    obtain ⟨hack, hbits⟩ := h
    simp only [Packet.write]
    simp only [List.append_assoc, List.singleton_append, List.cons_append,
      List.nil_append]
    rw [packet_read_tag2]
    unfold read_heartbeat
    rw [ReadM.bind_ok (read_u16_append hb.ack_data.ack _), Nat.mod_eq_of_lt hack]
    rw [ReadM.bind_ok (read_u32_append hb.ack_data.ack_bits _),
      Nat.mod_eq_of_lt hbits]
    rfl
  | Disconnect reason =>
    cases reason <;>
      (simp only [Packet.write]
       simp only [List.append_assoc, List.singleton_append, List.cons_append,
         List.nil_append]
       rw [packet_read_tag3]
       unfold read_disconnect
       rw [ReadM.bind_ok (read_u8_cons _ _), ReadM.bind_ok (read_u8_cons _ _)]
       rfl)

/-! ## Well-behavedness of the reader

`Wb m` states that a successful parse consumed a prefix of the buffer,
that the parse depends only on the consumed bytes, and that the parse
fails with the I/O truncation error on every strict prefix of what it
consumed.  It is proved compositionally over the reader combinators. -/

/-- A prefix of a concatenation that is at least as long as the left part
splits into the left part and a prefix of the right part. -/
theorem prefix_append_split {t a b : List Nat} (h : t <+: a ++ b)
    (hl : a.length ≤ t.length) : ∃ u, t = a ++ u ∧ u <+: b := by
  have ha : a <+: t :=
    List.prefix_of_prefix_length_le (List.prefix_append a b) h hl
  obtain ⟨u, hu⟩ := ha
  refine ⟨u, hu.symm, ?_⟩
  rw [← hu] at h
  exact (List.prefix_append_right_inj a).mp h

/-- `ReadM.pure` is well-behaved: it consumes nothing. -/
theorem wb_pure {α : Type} (a : α) : Wb (ReadM.pure a) := by
  intro l x r h
  unfold ReadM.pure at h
  injection h with h
  injection h with h1 h2
  subst h1; subst h2
  exact ⟨[], by simp, fun s => rfl, fun t ht hlt => absurd hlt (by simp)⟩

/-- `ReadM.fail` is well-behaved: it never succeeds. -/
theorem wb_fail {α : Type} (e : PacketError) : Wb (ReadM.fail (α := α) e) := by
  intro l x r h
  cases h

/-- `read_exact` is well-behaved. -/
theorem wb_read_exact (n : Nat) : Wb (read_exact n) := by
  intro l x r h
  unfold read_exact at h
  by_cases hn : n ≤ l.length
  · rw [if_pos hn] at h
    injection h with h
    injection h with h1 h2
    subst h1; subst h2
    refine ⟨l.take n,
      (l.take_append_drop n).symm,
      fun s => read_exact_of_length (l.take n) s (List.length_take_of_le hn),
      fun t ht hlt => ?_⟩
    unfold read_exact
    rw [if_neg (by rw [List.length_take_of_le hn] at hlt; omega)]
  · rw [if_neg hn] at h
    cases h

/-- Sequencing preserves well-behavedness. -/
theorem wb_bind {α β : Type} {m : ReadM α} {f : α → ReadM β}
    (hm : Wb m) (hf : ∀ a, Wb (f a)) : Wb (ReadM.bind m f) := by
  intro l b r h
  unfold ReadM.bind at h
  cases h1 : m l with
  | error e => rw [h1] at h; cases h
  | ok p =>
    obtain ⟨a, r1⟩ := p
    rw [h1] at h
    obtain ⟨c1, hc1, hext1, hpre1⟩ := hm l a r1 h1
    obtain ⟨c2, hc2, hext2, hpre2⟩ := hf a r1 b r h
    refine ⟨c1 ++ c2, by rw [hc1, hc2, List.append_assoc], fun s => ?_,
      fun t ht hlt => ?_⟩
    · unfold ReadM.bind
      rw [List.append_assoc, hext1 (c2 ++ s)]
      exact hext2 s
    · unfold ReadM.bind
      by_cases hsplit : t.length ≤ c1.length
      · rcases Nat.lt_or_ge t.length c1.length with hts | hts
        · have ht1 : t <+: c1 :=
            (List.isPrefix_append_of_length hsplit).mp ht
          rw [hpre1 t ht1 hts]
        · have hteq : t = c1 := by
            have ht1 : t <+: c1 :=
              (List.isPrefix_append_of_length hsplit).mp ht
            exact ht1.eq_of_length (by omega)
          subst hteq
          have h0 : c2.length ≠ 0 := by
            simp only [List.length_append] at hlt; omega
          have hm0 : m t = .ok (a, []) := by
            have := hext1 []
            rwa [List.append_nil] at this
          rw [hm0]
          exact hpre2 [] List.nil_prefix (by simp; omega)
      · obtain ⟨u, hu, hub⟩ := prefix_append_split ht (by omega)
        subst hu
        rw [hext1 u]
        exact hpre2 u hub (by simp only [List.length_append] at hlt; omega)

/-- `read_u8` is well-behaved. -/
theorem wb_read_u8 : Wb read_u8 :=
  wb_bind (wb_read_exact 1) (fun b => wb_pure (le_val b))

/-- `read_u16` is well-behaved. -/
theorem wb_read_u16 : Wb read_u16 :=
  wb_bind (wb_read_exact 2) (fun b => wb_pure (le_val b))

/-- `read_u32` is well-behaved. -/
theorem wb_read_u32 : Wb read_u32 :=
  wb_bind (wb_read_exact 4) (fun b => wb_pure (le_val b))

/-- Counted list reads of a well-behaved element reader are well-behaved. -/
theorem wb_read_list {α : Type} (m : ReadM α) (hm : Wb m) :
    ∀ n, Wb (read_list n m)
  | 0 => wb_pure []
  | n + 1 =>
    wb_bind hm (fun a =>
      wb_bind (wb_read_list m hm n) (fun rest => wb_pure (a :: rest)))

/-- The reliable-message reader is well-behaved. -/
theorem wb_read_reliable_message : Wb read_reliable_message :=
  wb_bind wb_read_u16 fun i =>
  wb_bind wb_read_u16 fun size =>
  wb_bind (wb_read_exact size) fun payload =>
  wb_pure { id := i, payload := payload }

/-- The unreliable-message reader is well-behaved. -/
theorem wb_read_unreliable_message : Wb read_unreliable_message :=
  wb_bind wb_read_u16 fun size =>
  wb_bind (wb_read_exact size) fun payload =>
  wb_pure payload

/-- The slice-message reader is well-behaved. -/
theorem wb_read_slice_message : Wb read_slice_message :=
  wb_bind wb_read_u16 fun chunk_id =>
  wb_bind wb_read_u32 fun slice_id =>
  wb_bind wb_read_u32 fun num_slices =>
  wb_bind wb_read_u16 fun size =>
  wb_bind (wb_read_exact size) fun payload =>
  wb_pure { chunk_id := chunk_id, slice_id := slice_id,
            num_slices := num_slices, payload := payload }

/-- The reliable-channel reader is well-behaved. -/
theorem wb_read_reliable_channel : Wb read_reliable_channel :=
  wb_bind wb_read_u8 fun channel_id =>
  wb_bind wb_read_u16 fun messages_len =>
  wb_bind (wb_read_list _ wb_read_reliable_message messages_len) fun messages =>
  wb_pure { channel_id := channel_id, messages := messages }

/-- The unreliable-channel reader is well-behaved. -/
theorem wb_read_unreliable_channel : Wb read_unreliable_channel :=
  wb_bind wb_read_u8 fun channel_id =>
  wb_bind wb_read_u16 fun messages_len =>
  wb_bind (wb_read_list _ wb_read_unreliable_message messages_len) fun messages =>
  wb_pure { channel_id := channel_id, messages := messages }

/-- The block-channel reader is well-behaved. -/
theorem wb_read_block_channel : Wb read_block_channel :=
  wb_bind wb_read_u8 fun channel_id =>
  wb_bind wb_read_u16 fun messages_len =>
  wb_bind (wb_read_list _ wb_read_slice_message messages_len) fun messages =>
  wb_pure { channel_id := channel_id, messages := messages }

/-- The Normal arm of the reader is well-behaved. -/
theorem wb_read_normal : Wb read_normal :=
  wb_bind wb_read_u16 fun sequence =>
  wb_bind wb_read_u16 fun ack =>
  wb_bind wb_read_u32 fun ack_bits =>
  wb_bind wb_read_u8 fun reliable_channel_len =>
  wb_bind (wb_read_list _ wb_read_reliable_channel reliable_channel_len)
    fun reliable_channels_data =>
  wb_bind wb_read_u8 fun unreliable_channel_len =>
  wb_bind (wb_read_list _ wb_read_unreliable_channel unreliable_channel_len)
    fun unreliable_channels_data =>
  wb_bind wb_read_u8 fun block_channel_len =>
  wb_bind (wb_read_list _ wb_read_block_channel block_channel_len)
    fun block_channels_data =>
  wb_pure _

/-- The Fragment arm of the reader is well-behaved. -/
theorem wb_read_fragment : Wb read_fragment :=
  wb_bind wb_read_u16 fun sequence =>
  wb_bind wb_read_u16 fun ack =>
  wb_bind wb_read_u32 fun ack_bits =>
  wb_bind wb_read_u8 fun fragment_id =>
  wb_bind wb_read_u8 fun num_fragments =>
  wb_bind wb_read_u16 fun size =>
  wb_bind (wb_read_exact size) fun payload =>
  wb_pure _

/-- The Heartbeat arm of the reader is well-behaved. -/
theorem wb_read_heartbeat : Wb read_heartbeat :=
  wb_bind wb_read_u16 fun ack =>
  wb_bind wb_read_u32 fun ack_bits =>
  wb_pure _

/-- The Disconnect arm of the reader is well-behaved. -/
theorem wb_read_disconnect : Wb read_disconnect :=
  wb_bind wb_read_u8 fun reason_id =>
  wb_bind wb_read_u8 fun channel_id => by
    cases DisconnectionReason.try_from reason_id channel_id with
    | some reason => exact wb_pure (Packet.Disconnect reason)
    | none => exact wb_fail _

/-- `Packet.read` is well-behaved. -/
theorem wb_packet_read : Wb Packet.read :=
  wb_bind wb_read_u8 fun packet_type => by
    by_cases h0 : packet_type = 0
    · simpa [h0] using wb_read_normal
    by_cases h1 : packet_type = 1
    · simpa [h0, h1] using wb_read_fragment
    by_cases h2 : packet_type = 2
    · simpa [h0, h1, h2] using wb_read_heartbeat
    by_cases h3 : packet_type = 3
    · simpa [h0, h1, h2, h3] using wb_read_disconnect
    · simpa [h0, h1, h2, h3] using wb_fail (α := Packet) .InvalidPacketType

/-! ## Encoded-length lemmas (for size agreement) -/

/-- Length of one written reliable message. -/
theorem reliable_message_write_length (m : ReliableMessage) :
    (ReliableMessage.write m).length = 2 + 2 + m.payload.length := by
  simp [ReliableMessage.write, u16_le]
  omega

/-- Length of one written unreliable message. -/
theorem unreliable_message_write_length (p : List Nat) :
    (unreliable_message_write p).length = 2 + p.length := by
  simp [unreliable_message_write, u16_le]
  omega

/-- Length of one written slice message. -/
theorem slice_message_write_length (m : SliceMessage) :
    (SliceMessage.write m).length = 2 + 4 + 4 + 2 + m.payload.length := by
  simp [SliceMessage.write, u16_le, u32_le]
  omega

/-- Length of one written reliable channel. -/
theorem reliable_channel_write_length (d : ReliableChannelData) :
    (ReliableChannelData.write d).length =
      1 + 2 + (d.messages.map (fun m => 2 + 2 + m.payload.length)).sum := by
  simp only [ReliableChannelData.write, List.length_append, List.length_cons,
    List.length_nil, u16_le, List.length_flatten, List.map_map]
  have : (d.messages.map (List.length ∘ ReliableMessage.write)).sum =
      (d.messages.map (fun m => 2 + 2 + m.payload.length)).sum := by
    congr 1
    exact List.map_congr_left (fun m hm => by
      simp [Function.comp, reliable_message_write_length])
  omega

/-- Length of one written unreliable channel. -/
theorem unreliable_channel_write_length (d : UnreliableChannelData) :
    (UnreliableChannelData.write d).length =
      1 + 2 + (d.messages.map (fun m => 2 + m.length)).sum := by
  simp only [UnreliableChannelData.write, List.length_append, List.length_cons,
    List.length_nil, u16_le, List.length_flatten, List.map_map]
  have : (d.messages.map (List.length ∘ unreliable_message_write)).sum =
      (d.messages.map (fun m => 2 + m.length)).sum := by
    congr 1
    exact List.map_congr_left (fun m hm => by
      simp [Function.comp, unreliable_message_write_length])
  omega

/-- Length of one written block channel. -/
theorem block_channel_write_length (d : BlockChannelData) :
    (BlockChannelData.write d).length =
      1 + 2 + (d.messages.map (fun m => 2 + 4 + 4 + 2 + m.payload.length)).sum := by
  simp only [BlockChannelData.write, List.length_append, List.length_cons,
    List.length_nil, u16_le, List.length_flatten, List.map_map]
  have : (d.messages.map (List.length ∘ SliceMessage.write)).sum =
      (d.messages.map (fun m => 2 + 4 + 4 + 2 + m.payload.length)).sum := by
    congr 1
    exact List.map_congr_left (fun m hm => by
      simp [Function.comp, slice_message_write_length])
  omega

/-- The measured size of a Normal packet equals its encoded length. -/
theorem write_normal_length (n : Normal) :
    Packet.serialize_size (.Normal n) = (Packet.write (.Normal n)).length := by
  simp only [Packet.serialize_size, Packet.write, List.length_append,
    List.length_cons, List.length_nil, u16_le, u32_le, List.length_flatten,
    List.map_map]
  have h1 : (n.channel_messages.reliable_channels_data.map
      (List.length ∘ ReliableChannelData.write)).sum =
      (n.channel_messages.reliable_channels_data.map (fun d =>
        1 + 2 + (d.messages.map (fun m => 2 + 2 + m.payload.length)).sum)).sum := by
    congr 1
    exact List.map_congr_left (fun d hd => by
      simp [Function.comp, reliable_channel_write_length])
  have h2 : (n.channel_messages.unreliable_channels_data.map
      (List.length ∘ UnreliableChannelData.write)).sum =
      (n.channel_messages.unreliable_channels_data.map (fun d =>
        1 + 2 + (d.messages.map (fun m => 2 + m.length)).sum)).sum := by
    congr 1
    exact List.map_congr_left (fun d hd => by
      simp [Function.comp, unreliable_channel_write_length])
  have h3 : (n.channel_messages.block_channels_data.map
      (List.length ∘ BlockChannelData.write)).sum =
      (n.channel_messages.block_channels_data.map (fun d =>
        1 + 2 + (d.messages.map (fun m => 2 + 4 + 4 + 2 + m.payload.length)).sum)).sum := by
    congr 1
    exact List.map_congr_left (fun d hd => by
      simp [Function.comp, block_channel_write_length])
  omega

/-! ## Claims -/

/-- C1: for every packet whose byte payloads are at most 65535 bytes, whose
per-channel message lists have at most 65535 entries and whose three
channel lists have at most 255 entries each (together with the `u8`/`u16`/
`u32` field bounds the Rust types impose), `Packet::read` applied to the
output of `Packet::write` returns `Ok` of the original packet, for all
four variants and every channel-data combination. -/
theorem claim_C1 (p : Packet) (h : p.wf) :
    Packet.read (Packet.write p) = .ok (p, []) := by
  have hrt := packet_read_write p h []
  rwa [List.append_nil] at hrt

/-- Witness for C1 at a concrete packet populating all three channel
categories. -/
theorem claim_C1_witness :
    sample_packet.wf ∧
      Packet.read (Packet.write sample_packet) = .ok (sample_packet, []) :=
  ⟨by decide, claim_C1 sample_packet (by decide)⟩

/-- C2 (amended): `Packet::serialize_size` equals the number of bytes
`Packet::write` produces for Normal packets; for the Fragment, Heartbeat
and Disconnect variants `serialize_size` returns `0` (the `_ => 0` arm),
not their encoded length. -/
theorem claim_C2 :
    (∀ n : Normal,
      Packet.serialize_size (.Normal n) = (Packet.write (.Normal n)).length) ∧
    (∀ f : Fragment, Packet.serialize_size (.Fragment f) = 0) ∧
    (∀ hb : HeartBeat, Packet.serialize_size (.Heartbeat hb) = 0) ∧
    (∀ r : DisconnectionReason, Packet.serialize_size (.Disconnect r) = 0) := by
  refine ⟨write_normal_length, fun f => rfl, fun hb => rfl, fun r => rfl⟩

/-- Counterexample to C2 as stated: a Heartbeat packet is written as 7
bytes but measured as 0. -/
theorem claim_C2_counterexample :
    Packet.serialize_size (.Heartbeat { ack_data := { ack := 0, ack_bits := 0 } }) ≠
      (Packet.write (.Heartbeat { ack_data := { ack := 0, ack_bits := 0 } })).length := by
  decide

/-- C3 fails on the code: `disconnect_packet` serializes with bincode
(varint), so for the five reasons without a channel id it emits only two
bytes and `Packet::read` rejects its output with the I/O truncation error;
only for the three channel-carrying reasons does the bincode encoding
coincide with the hand-rolled three-byte wire format. -/
theorem claim_C3_bug :
    disconnect_packet .TimedOut = [3, 1] ∧
    Packet.read (disconnect_packet .TimedOut) = .error .IoError ∧
    (∀ c, disconnect_packet (.InvalidChannelId c) = [3, 5, c]) ∧
    (∀ c, Packet.read (disconnect_packet (.InvalidChannelId c)) =
      .ok (.Disconnect (.InvalidChannelId c), [])) := by
  refine ⟨rfl, rfl, fun c => rfl, fun c => ?_⟩
  show Packet.read (3 :: 5 :: c :: []) = _
  rw [packet_read_tag3]
  unfold read_disconnect
  rw [ReadM.bind_ok (read_u8_cons 5 _), ReadM.bind_ok (read_u8_cons c _)]
  rfl

/-- Inversion of a successful bind: the first reader succeeded and the
continuation succeeded on its leftover. -/
theorem ReadM.ok_of_bind {α β : Type} {m : ReadM α} {f : α → ReadM β}
    {l : List Nat} {b : β} {r : List Nat}
    (h : ReadM.bind m f l = .ok (b, r)) :
    ∃ a r1, m l = .ok (a, r1) ∧ f a r1 = .ok (b, r) := by
  unfold ReadM.bind at h
  cases h1 : m l with
  | error e => rw [h1] at h; cases h
  | ok p =>
    obtain ⟨a, r1⟩ := p
    rw [h1] at h
    exact ⟨a, r1, rfl, h⟩

/-- A successful parse of the Normal arm yields a Normal packet. -/
theorem read_normal_shape {l : List Nat} {p : Packet} {r : List Nat}
    (h : read_normal l = .ok (p, r)) : ∃ n, p = Packet.Normal n := by
  unfold read_normal at h
  obtain ⟨a1, s1, -, h⟩ := ReadM.ok_of_bind h
  obtain ⟨a2, s2, -, h⟩ := ReadM.ok_of_bind h
  obtain ⟨a3, s3, -, h⟩ := ReadM.ok_of_bind h
  obtain ⟨a4, s4, -, h⟩ := ReadM.ok_of_bind h
  obtain ⟨a5, s5, -, h⟩ := ReadM.ok_of_bind h
  obtain ⟨a6, s6, -, h⟩ := ReadM.ok_of_bind h
  obtain ⟨a7, s7, -, h⟩ := ReadM.ok_of_bind h
  obtain ⟨a8, s8, -, h⟩ := ReadM.ok_of_bind h
  obtain ⟨a9, s9, -, h⟩ := ReadM.ok_of_bind h
  unfold ReadM.pure at h
  injection h with h
  injection h with h1 h2
  exact ⟨_, h1.symm⟩

/-- A successful parse of the Fragment arm yields a Fragment packet. -/
theorem read_fragment_shape {l : List Nat} {p : Packet} {r : List Nat}
    (h : read_fragment l = .ok (p, r)) : ∃ f, p = Packet.Fragment f := by
  unfold read_fragment at h
  obtain ⟨a1, s1, -, h⟩ := ReadM.ok_of_bind h
  obtain ⟨a2, s2, -, h⟩ := ReadM.ok_of_bind h
  obtain ⟨a3, s3, -, h⟩ := ReadM.ok_of_bind h
  obtain ⟨a4, s4, -, h⟩ := ReadM.ok_of_bind h
  obtain ⟨a5, s5, -, h⟩ := ReadM.ok_of_bind h
  obtain ⟨a6, s6, -, h⟩ := ReadM.ok_of_bind h
  obtain ⟨a7, s7, -, h⟩ := ReadM.ok_of_bind h
  unfold ReadM.pure at h
  injection h with h
  injection h with h1 h2
  exact ⟨_, h1.symm⟩

/-- A successful parse of the Heartbeat arm yields a Heartbeat packet. -/
theorem read_heartbeat_shape {l : List Nat} {p : Packet} {r : List Nat}
    (h : read_heartbeat l = .ok (p, r)) : ∃ hb, p = Packet.Heartbeat hb := by
  unfold read_heartbeat at h
  obtain ⟨a1, s1, -, h⟩ := ReadM.ok_of_bind h
  obtain ⟨a2, s2, -, h⟩ := ReadM.ok_of_bind h
  unfold ReadM.pure at h
  injection h with h
  injection h with h1 h2
  exact ⟨_, h1.symm⟩

/-- A successful parse of the Disconnect arm yields a Disconnect packet. -/
theorem read_disconnect_shape {l : List Nat} {p : Packet} {r : List Nat}
    (h : read_disconnect l = .ok (p, r)) :
    ∃ reason, p = Packet.Disconnect reason := by
  unfold read_disconnect at h
  obtain ⟨a1, s1, -, h⟩ := ReadM.ok_of_bind h
  obtain ⟨a2, s2, -, h⟩ := ReadM.ok_of_bind h
  cases htf : DisconnectionReason.try_from a1 a2 with
  | some reason =>
    rw [htf] at h
    injection h with h
    injection h with h1 h2
    exact ⟨_, h1.symm⟩
  | none =>
    rw [htf] at h
    cases h

/-- `try_from` rejects every id of eight or more. -/
theorem try_from_ge_eight {i : Nat} (c : Nat) (h : 8 ≤ i) :
    DisconnectionReason.try_from i c = none := by
  unfold DisconnectionReason.try_from
  split_ifs with h0 h1 h2 h3 h4 h5 h6 h7 <;> first | rfl | omega

/-- C4: decoding any strict prefix of an encoded well-formed packet fails
with the I/O truncation error (never `Ok`), and a successful decode never
consumes more bytes than the buffer holds: the leftover is a suffix of the
input. -/
theorem claim_C4 :
    (∀ p : Packet, p.wf → ∀ t, t <+: Packet.write p → t ≠ Packet.write p →
      Packet.read t = .error .IoError) ∧
    (∀ l q r, Packet.read l = .ok (q, r) → ∃ c, l = c ++ r) := by
  constructor
  · intro p hp t ht hne
    have hrt : Packet.read (Packet.write p ++ []) = .ok (p, []) := by
      rw [List.append_nil]
      have := packet_read_write p hp []
      rwa [List.append_nil] at this
    obtain ⟨c, hc, hext, hpre⟩ := wb_packet_read (Packet.write p ++ []) p []
      hrt
    rw [List.append_nil] at hc
    rw [List.append_nil] at hc
    subst hc
    exact hpre t ht
      (Nat.lt_of_le_of_ne ht.length_le (fun hl => hne (ht.eq_of_length hl)))
  · intro l q r h
    obtain ⟨c, hc, -, -⟩ := wb_packet_read l q r h
    exact ⟨c, hc⟩

/-- Witness for C4: a six-byte strict prefix of the seven-byte heartbeat
encoding is rejected with the I/O error. -/
theorem claim_C4_witness :
    Packet.read [2, 0, 0, 0, 0, 0] = .error .IoError :=
  claim_C4.1 (Packet.Heartbeat { ack_data := { ack := 0, ack_bits := 0 } })
    (by decide) [2, 0, 0, 0, 0, 0] (by decide) (by decide)

/-- C5: the tag byte written first by `Packet::write` is 0, 1, 2, 3 for
Normal, Fragment, Heartbeat, Disconnect; `Packet::read` dispatches on
that byte to the parser of the corresponding variant (and each arm can
only return its own variant); every tag above 3 is rejected with
`InvalidPacketType`. -/
theorem claim_C5 :
    (∀ l, Packet.read (0 :: l) = read_normal l) ∧
    (∀ l, Packet.read (1 :: l) = read_fragment l) ∧
    (∀ l, Packet.read (2 :: l) = read_heartbeat l) ∧
    (∀ l, Packet.read (3 :: l) = read_disconnect l) ∧
    (∀ l p r, read_normal l = .ok (p, r) → ∃ n, p = Packet.Normal n) ∧
    (∀ l p r, read_fragment l = .ok (p, r) → ∃ f, p = Packet.Fragment f) ∧
    (∀ l p r, read_heartbeat l = .ok (p, r) → ∃ hb, p = Packet.Heartbeat hb) ∧
    (∀ l p r, read_disconnect l = .ok (p, r) →
      ∃ reason, p = Packet.Disconnect reason) ∧
    (∀ p : Packet, (Packet.write p).head? = some p.packet_type) ∧
    (∀ b l, 3 < b → Packet.read (b :: l) = .error .InvalidPacketType) := by
  refine ⟨packet_read_tag0, packet_read_tag1, packet_read_tag2,
    packet_read_tag3,
    fun l p r h => read_normal_shape h,
    fun l p r h => read_fragment_shape h,
    fun l p r h => read_heartbeat_shape h,
    fun l p r h => read_disconnect_shape h,
    fun p => ?_,
    fun b l hb => packet_read_tag_invalid b hb l⟩
  cases p <;> rfl

/-- Witness for C5: tag byte 4 on an otherwise empty buffer is rejected. -/
theorem claim_C5_witness :
    Packet.read [4] = .error .InvalidPacketType :=
  claim_C5.2.2.2.2.2.2.2.2.2 4 [] (by omega)

/-- C6: `id` maps the eight reasons onto 0..7, injectively at the variant
level (equal ids force equal variants once the carried channel id is
equalized); `try_from (r.id) c` returns the same variant carrying `c`;
`try_from` returns `none` exactly for ids of 8 or more, and `Packet::read`
then fails with `InvalidDisconnectReason`. -/
theorem claim_C6 :
    (∀ (r : DisconnectionReason) (c : Nat),
      DisconnectionReason.try_from r.id c = some (r.with_channel c)) ∧
    (∀ r : DisconnectionReason, r.id < 8) ∧
    (∀ (r1 r2 : DisconnectionReason) (c : Nat), r1.id = r2.id →
      r1.with_channel c = r2.with_channel c) ∧
    (∀ i c, DisconnectionReason.try_from i c = none ↔ 8 ≤ i) ∧
    (∀ i c l, 8 ≤ i →
      Packet.read (3 :: i :: c :: l) = .error .InvalidDisconnectReason) ∧
    (∀ i, i < 8 → ∃ r : DisconnectionReason, r.id = i) := by
  refine ⟨fun r c => ?_, fun r => ?_, fun r1 r2 c h => ?_, fun i c => ?_,
    fun i c l h => ?_, fun i hi => ?_⟩
  · cases r <;> rfl
  · cases r <;> simp [DisconnectionReason.id]
  · cases r1 <;> cases r2 <;>
      simp_all [DisconnectionReason.id, DisconnectionReason.with_channel]
  · constructor
    · intro hn
      by_contra hlt
      push_neg at hlt
      interval_cases i <;> simp_all [DisconnectionReason.try_from]
    · intro hge
      exact try_from_ge_eight c hge
  · rw [packet_read_tag3]
    unfold read_disconnect
    rw [ReadM.bind_ok (read_u8_cons i _), ReadM.bind_ok (read_u8_cons c _)]
    rw [try_from_ge_eight c h]
    rfl
  · interval_cases i
    · exact ⟨.MaxConnections, rfl⟩
    · exact ⟨.TimedOut, rfl⟩
    · exact ⟨.DisconnectedByServer, rfl⟩
    · exact ⟨.DisconnectedByClient, rfl⟩
    · exact ⟨.ClientAlreadyConnected, rfl⟩
    · exact ⟨.InvalidChannelId 0, rfl⟩
    · exact ⟨.MismatchingChannelType 0, rfl⟩
    · exact ⟨.ReliableChannelOutOfSync 0, rfl⟩

/-- Witness for C6 at concrete inputs: the round-trip at
`ReliableChannelOutOfSync`, and rejection of id 9. -/
theorem claim_C6_witness :
    DisconnectionReason.try_from
        (DisconnectionReason.ReliableChannelOutOfSync 3).id 3 =
      some (.ReliableChannelOutOfSync 3) ∧
    Packet.read [3, 9, 0] = .error .InvalidDisconnectReason :=
  ⟨claim_C6.1 (.ReliableChannelOutOfSync 3) 3,
    claim_C6.2.2.2.2.1 9 0 [] (by omega)⟩

/-- `read_exact 0` consumes nothing. -/
theorem read_exact_zero (l : List Nat) : read_exact 0 l = .ok ([], l) := by
  unfold read_exact
  simp

/-- C7 (amended): a Fragment packet with payload of length `L` at most
65535 is written with the claimed layout - tag 1, sequence and ack as
little-endian u16, ack_bits as little-endian u32, fragment_id and
num_fragments as single bytes, the payload length `L` as little-endian
u16, then the payload verbatim - but that layout totals `13 + L` bytes
(1+2+2+4+1+1+2 header bytes), not `11 + L`. -/
theorem claim_C7 (f : Fragment) (h : f.payload.length ≤ 65535) :
    Packet.write (.Fragment f) =
      [1] ++ u16_le f.sequence ++ u16_le f.ack_data.ack ++
        u32_le f.ack_data.ack_bits ++ [f.fragment_id] ++ [f.num_fragments] ++
        u16_le f.payload.length ++ f.payload ∧
    (Packet.write (.Fragment f)).length = 13 + f.payload.length := by
  constructor
  · simp only [Packet.write]
    rw [Nat.mod_eq_of_lt (show f.payload.length < 65536 by omega)]
  · simp [Packet.write, u16_le, u32_le]
    omega

/-- Counterexample to C7 as stated: the empty-payload fragment encodes to
13 bytes, not `11 + 0`. -/
theorem claim_C7_counterexample :
    (Packet.write (.Fragment
      { sequence := 0, ack_data := { ack := 0, ack_bits := 0 },
        fragment_id := 0, num_fragments := 0, payload := [] })).length ≠
      11 + ([] : List Nat).length := by
  decide

/-- Witness for C7 at a concrete two-byte-payload fragment. -/
theorem claim_C7_witness :
    sample_fragment.payload.length ≤ 65535 ∧
    (Packet.write (.Fragment sample_fragment) =
      [1] ++ u16_le sample_fragment.sequence ++
        u16_le sample_fragment.ack_data.ack ++
        u32_le sample_fragment.ack_data.ack_bits ++
        [sample_fragment.fragment_id] ++ [sample_fragment.num_fragments] ++
        u16_le sample_fragment.payload.length ++ sample_fragment.payload ∧
     (Packet.write (.Fragment sample_fragment)).length =
       13 + sample_fragment.payload.length) :=
  ⟨by decide, claim_C7 sample_fragment (by decide)⟩

/-- C8: a Disconnect packet is written as exactly 3 bytes: tag 3, the
reason id, then the carried channel id for the three channel-carrying
reasons and 0 for the other five. -/
theorem claim_C8 (r : DisconnectionReason) :
    Packet.write (.Disconnect r) = [3, r.id, r.channel_byte] ∧
    (Packet.write (.Disconnect r)).length = 3 ∧
    (∀ c, (DisconnectionReason.InvalidChannelId c).channel_byte = c) ∧
    (∀ c, (DisconnectionReason.MismatchingChannelType c).channel_byte = c) ∧
    (∀ c, (DisconnectionReason.ReliableChannelOutOfSync c).channel_byte = c) ∧
    DisconnectionReason.MaxConnections.channel_byte = 0 ∧
    DisconnectionReason.TimedOut.channel_byte = 0 ∧
    DisconnectionReason.DisconnectedByServer.channel_byte = 0 ∧
    DisconnectionReason.DisconnectedByClient.channel_byte = 0 ∧
    DisconnectionReason.ClientAlreadyConnected.channel_byte = 0 := by
  refine ⟨?_, ?_, fun c => rfl, fun c => rfl, fun c => rfl, rfl, rfl, rfl,
    rfl, rfl⟩
  · cases r <;> rfl
  · cases r <;> rfl

/-- C9: a Normal packet body is the 9-byte header followed by the
reliable-channels block, then the unreliable-channels block, then the
block-channels block, each a count byte followed by the channels' bytes in
caller order; `is_empty` holds exactly when all three lists are empty; an
empty aggregation encodes as the header plus three zero count bytes, 12
bytes in total. -/
theorem claim_C9 :
    (∀ n : Normal, Packet.write (.Normal n) =
      [0] ++ u16_le n.sequence ++ u16_le n.ack_data.ack ++
        u32_le n.ack_data.ack_bits ++
        ([n.channel_messages.reliable_channels_data.length % 256] ++
          (n.channel_messages.reliable_channels_data.map
            ReliableChannelData.write).flatten) ++
        ([n.channel_messages.unreliable_channels_data.length % 256] ++
          (n.channel_messages.unreliable_channels_data.map
            UnreliableChannelData.write).flatten) ++
        ([n.channel_messages.block_channels_data.length % 256] ++
          (n.channel_messages.block_channels_data.map
            BlockChannelData.write).flatten)) ∧
    (∀ c : ChannelMessages, c.is_empty = true ↔
      (c.reliable_channels_data = [] ∧ c.unreliable_channels_data = [] ∧
        c.block_channels_data = [])) ∧
    (∀ n : Normal, n.channel_messages.is_empty = true →
      Packet.write (.Normal n) =
        [0] ++ u16_le n.sequence ++ u16_le n.ack_data.ack ++
          u32_le n.ack_data.ack_bits ++ [0, 0, 0] ∧
      (Packet.write (.Normal n)).length = 12) := by
  refine ⟨fun n => rfl, fun c => ?_, fun n hn => ?_⟩
  · simp only [ChannelMessages.is_empty, Bool.and_eq_true, List.isEmpty_iff]
    tauto
  · simp only [ChannelMessages.is_empty, Bool.and_eq_true,
      List.isEmpty_iff] at hn
    obtain ⟨⟨hb, hu⟩, hr⟩ := hn
    constructor
    · simp only [Packet.write, hb, hu, hr]
      simp
    · simp only [Packet.write, hb, hu, hr]
      simp [u16_le, u32_le]

/-- Witness for C9 at a concrete empty aggregation. -/
theorem claim_C9_witness :
    empty_normal.channel_messages.is_empty = true ∧
    (Packet.write (.Normal empty_normal) =
      [0] ++ u16_le empty_normal.sequence ++
        u16_le empty_normal.ack_data.ack ++
        u32_le empty_normal.ack_data.ack_bits ++ [0, 0, 0] ∧
     (Packet.write (.Normal empty_normal)).length = 12) :=
  ⟨by decide, claim_C9.2.2 empty_normal (by decide)⟩

/-- C10: `Packet::write` never fails on oversized payloads; it casts every
length with `as u16` / `as u8`, writing the length prefix modulo `2^16`
(message payloads and per-channel message counts) or `2^8` (channel-list
counts) while still writing all payload bytes.  At the concrete Fragment
packet with a 65536-byte payload the length prefix wraps to 0, decoding
succeeds but returns a different packet (empty payload, 65536 leftover
bytes), so decode of encode cannot equal the original. -/
theorem claim_C10 :
    (∀ f : Fragment, Packet.write (.Fragment f) =
      [1] ++ u16_le f.sequence ++ u16_le f.ack_data.ack ++
        u32_le f.ack_data.ack_bits ++ [f.fragment_id] ++ [f.num_fragments] ++
        u16_le (f.payload.length % 65536) ++ f.payload) ∧
    (∀ d : ReliableChannelData, d.write =
      [d.channel_id] ++ u16_le (d.messages.length % 65536) ++
        (d.messages.map ReliableMessage.write).flatten) ∧
    (∀ m : ReliableMessage, m.write =
      u16_le m.id ++ u16_le (m.payload.length % 65536) ++ m.payload) ∧
    (∀ n : Normal, (Packet.write (.Normal n))[9]? =
      some (n.channel_messages.reliable_channels_data.length % 256)) ∧
    (Packet.write (.Fragment oversized_fragment)).length = 13 + 65536 ∧
    Packet.read (Packet.write (.Fragment oversized_fragment)) =
      .ok (.Fragment { oversized_fragment with payload := [] },
        List.replicate 65536 7) ∧
    Packet.read (Packet.write (.Fragment oversized_fragment)) ≠
      .ok (.Fragment oversized_fragment, []) := by
  have h6 : Packet.read (Packet.write (.Fragment oversized_fragment)) =
      .ok (.Fragment { oversized_fragment with payload := [] },
        List.replicate 65536 7) := by
    simp only [Packet.write, oversized_fragment]
    rw [List.length_replicate, Nat.mod_self]
    simp only [List.append_assoc, List.singleton_append, List.cons_append,
      List.nil_append]
    rw [packet_read_tag1]
    unfold read_fragment
    rw [ReadM.bind_ok (read_u16_append 0 _), Nat.zero_mod]
    rw [ReadM.bind_ok (read_u16_append 0 _), Nat.zero_mod]
    rw [ReadM.bind_ok (read_u32_append 0 _), Nat.zero_mod]
    rw [ReadM.bind_ok (read_u8_cons 0 _)]
    rw [ReadM.bind_ok (read_u8_cons 1 _)]
    rw [ReadM.bind_ok (read_u16_append 0 _), Nat.zero_mod]
    rw [ReadM.bind_ok (read_exact_zero _)]
    rfl
  refine ⟨fun f => rfl, fun d => rfl, fun m => rfl, fun n => ?_, ?_, h6, ?_⟩
  · simp only [Packet.write, u16_le, u32_le, List.append_assoc,
      List.cons_append, List.singleton_append, List.nil_append]
    simp [List.getElem?_cons_succ, List.getElem?_cons_zero]
  · simp only [Packet.write, oversized_fragment, List.length_append,
      List.length_cons, List.length_nil, u16_le, u32_le,
      List.length_replicate]
  · rw [h6]
    intro hc
    injection hc with hc
    injection hc with h1 h2
    have hlen := congrArg List.length h2
    rw [List.length_replicate, List.length_nil] at hlen
    exact absurd hlen (by omega)

end Renet




